import Mathlib

/-
Verification of the coordinate-resolution, dimension-reduction, CRS-reconciliation
and load/state logic of the NCInfoer geospatial viewer (src/main.py, src/mainAPP.py).

The Python source is shallowly embedded below.  Multi-dimensional numpy arrays are
modelled as a shape (list of axis sizes) together with a total element function from
index lists to integers; numpy `meshgrid` and `squeeze`, and Python dict/list
operations, are translated by their documented semantics.  Exceptions caught by the
source's try/except handlers become explicit outcome constructors.
-/

namespace NCInfoer

/-- A numpy array value: its shape plus an element lookup by index list.
Element values are modelled as integers (the claims under study only inspect
shapes and element placement, never arithmetic on the data). -/
structure PyArr where
  shape : List Nat
  get : List Nat → Int

/-- numpy `ndim`: the rank of the array. -/
def PyArr.ndim (a : PyArr) : Nat := a.shape.length

/-- Character-list prefix test, used to implement Python substring containment. -/
def leadMatch : List Char → List Char → Bool
  | [], _ => true
  | _ :: _, [] => false
  | a :: as, b :: bs => a == b && leadMatch as bs

/-- Python `needle in hay` on strings (substring containment), over char lists. -/
def hasSub (needle : List Char) : List Char → Bool
  | [] => leadMatch needle []
  | c :: tl => leadMatch needle (c :: tl) || hasSub needle tl

/-- Python `str.lower()` restricted to the char list of a string. -/
def lowerChars (s : String) : List Char := s.data.map Char.toLower

/-- A netCDF variable: ordered dimension names, shape and data
(`len(dimension_names) == len(shape)` is carried as a hypothesis where needed). -/
structure NCVar where
  dims : List String
  shape : List Nat
  get : List Nat → Int

/-- `var[:]`: the whole array of a variable. -/
def NCVar.arr (v : NCVar) : PyArr := ⟨v.shape, v.get⟩

/-- A netCDF dataset: its ordered mapping of variable names to variables
(the source's `.variables` attribute; `variables` is a reserved word in Lean,
hence the field name `vars`). -/
structure NCDataset where
  vars : List (String × NCVar)

/-- `self.nc_dataset.variables.get(name)` / `name in ... .variables`. -/
def lookupVar (ds : NCDataset) (name : String) : Option NCVar :=
  ds.vars.lookup name

/-- `possible_lon_names` from `find_nc_coords`. -/
def possible_lon_names : List String := ["lon", "longitude", "x"]

/-- `possible_lat_names` from `find_nc_coords`. -/
def possible_lat_names : List String := ["lat", "latitude", "y"]

/-- `any(name in dim_name.lower() for name in pats)`: the role test applied to a
dimension name by the inner loops of `find_nc_coords`. -/
def matchesRole (pats : List String) (dim_name : String) : Bool :=
  pats.any fun name => hasSub name.data (lowerChars dim_name)

/-- One iteration of the `for dim_name in var.dimensions` loop of `find_nc_coords`:
each role's accumulator is overwritten when the dimension name matches the role's
name set and a coordinate variable of the same name exists in the dataset. -/
def findStep (ds : NCDataset) (acc : Option PyArr × Option PyArr) (dim_name : String) :
    Option PyArr × Option PyArr :=
  (if matchesRole possible_lon_names dim_name && (lookupVar ds dim_name).isSome
     then (lookupVar ds dim_name).map NCVar.arr else acc.1,
   if matchesRole possible_lat_names dim_name && (lookupVar ds dim_name).isSome
     then (lookupVar ds dim_name).map NCVar.arr else acc.2)

/-- The complete dimension loop of `find_nc_coords`, before the meshgrid step. -/
def findRaw (ds : NCDataset) (dims : List String) : Option PyArr × Option PyArr :=
  dims.foldl (findStep ds) (none, none)

/-- `np.meshgrid(x, y)` for 1-D inputs: two arrays of shape `(len(y), len(x))`,
the first repeating `x` along rows, the second repeating `y` along columns. -/
def meshgrid (x y : PyArr) : PyArr × PyArr :=
  (⟨[y.shape.headD 0, x.shape.headD 0], fun idx => x.get [idx.getD 1 0]⟩,
   ⟨[y.shape.headD 0, x.shape.headD 0], fun idx => y.get [idx.getD 0 0]⟩)

/-- `GeospatialTool.find_nc_coords`: run the dimension loop; if both coordinates
were found and both are 1-D, replace them by their meshgrid. -/
def find_nc_coords (ds : NCDataset) (var : NCVar) : Option PyArr × Option PyArr :=
  match findRaw ds var.dims with
  | (some lon, some lat) =>
      if lon.ndim == 1 && lat.ndim == 1 then
        (some (meshgrid lon lat).1, some (meshgrid lon lat).2)
      else (some lon, some lat)
  | r => r

/-- `np.squeeze`: drop all axes of size 1. -/
def unsqueezeIdx : List Nat → List Nat → List Nat
  | [], _ => []
  | s :: sh, idx =>
      if s == 1 then 0 :: unsqueezeIdx sh idx
      else idx.headD 0 :: unsqueezeIdx sh idx.tail

/-- `np.squeeze(a)`. -/
def squeeze (a : PyArr) : PyArr :=
  ⟨a.shape.filter (fun s => s != 1), fun idx => a.get (unsqueezeIdx a.shape idx)⟩

/-- `data = var[:]` followed by `if data.ndim > 2: data = np.squeeze(data)`
in `plot_nc_variable`. -/
def viewData (v : NCVar) : PyArr :=
  if 2 < v.arr.ndim then squeeze v.arr else v.arr

/-- Outcome of the two gridded plotting entry points.  `plotted` is the render
call handed to the figure (fire-and-forget); the error constructors are the
distinct `show_error_message` calls, and `genericErr` is the catch-all
`except Exception` handler. -/
inductive PlotOutcome where
  | plotted (lon lat data : PyArr)
  | shapeErr (shape : List Nat)
  | coordsNotFound
  | coordMismatch
  | genericErr

/-- `GeospatialTool.plot_nc_variable` (automatic rank-2 path). -/
def plot_nc_variable (ds : NCDataset) (var_name : String) : PlotOutcome :=
  match lookupVar ds var_name with
  | none => .genericErr
  | some var =>
      if (viewData var).ndim ≠ 2 then .shapeErr (viewData var).shape
      else
        match find_nc_coords ds var with
        | (some lon, some lat) => .plotted lon lat (viewData var)
        | _ => .coordsNotFound

/-- The `slice_obj` construction loop of `plot_high_dim_variable_with_coords`:
full slice on the two chosen spatial axes, the pinned index from `index_map`
elsewhere.  `none` models the `KeyError` raised by `index_map[dim]`. -/
def buildSlice (x_dim y_dim : String) (index_map : List (String × Nat)) :
    List String → Option (List (Option Nat))
  | [] => some []
  | d :: rest =>
      if d == x_dim || d == y_dim then
        (buildSlice x_dim y_dim index_map rest).map (fun so => none :: so)
      else
        match index_map.lookup d with
        | some i => (buildSlice x_dim y_dim index_map rest).map (fun so => some i :: so)
        | none => none

/-- numpy bounds check of `var[tuple(slice_obj)]`: every pinned index must be
within its axis size (failure models the `IndexError`). -/
def checkBounds : List (Option Nat) → List Nat → Bool
  | [], [] => true
  | none :: so, _ :: sh => checkBounds so sh
  | some i :: so, s :: sh => decide (i < s) && checkBounds so sh
  | _, _ => false

/-- Shape of `var[tuple(slice_obj)]`: sizes of the axes taken in full. -/
def keptShape : List (Option Nat) → List Nat → List Nat
  | none :: so, s :: sh => s :: keptShape so sh
  | some _ :: so, _ :: sh => keptShape so sh
  | _, _ => []

/-- Rebuild a full index of the source variable from an index into the
reduced array. -/
def expandIdx : List (Option Nat) → List Nat → List Nat
  | [], _ => []
  | none :: so, idx => idx.headD 0 :: expandIdx so idx.tail
  | some i :: so, idx => i :: expandIdx so idx

/-- Result of `data = var[tuple(slice_obj)]` including the two exceptions the
surrounding `try` can catch during it. -/
inductive SliceOutcome where
  | ok (a : PyArr)
  | keyErr
  | idxErr

/-- The reduction step of `plot_high_dim_variable_with_coords`: build the slice
object (KeyError possible), then index the variable (IndexError possible). -/
def sliceVar (var : NCVar) (x_dim y_dim : String) (index_map : List (String × Nat)) :
    SliceOutcome :=
  match buildSlice x_dim y_dim index_map var.dims with
  | none => .keyErr
  | some so =>
      if checkBounds so var.shape then
        .ok ⟨keptShape so var.shape, fun idx => var.get (expandIdx so idx)⟩
      else .idxErr

/-- `GeospatialTool.plot_high_dim_variable_with_coords` (explicit N-D path). -/
def plot_high_dim_variable_with_coords (ds : NCDataset) (var : NCVar)
    (index_map : List (String × Nat)) (x_dim y_dim : String) : PlotOutcome :=
  match sliceVar var x_dim y_dim index_map with
  | .keyErr => .genericErr
  | .idxErr => .genericErr
  | .ok data =>
      if data.ndim ≠ 2 then .shapeErr data.shape
      else
        match lookupVar ds x_dim, lookupVar ds y_dim with
        | some x_vals, some y_vals =>
            if x_vals.arr.ndim == 1 && y_vals.arr.ndim == 1 then
              .plotted (meshgrid x_vals.arr y_vals.arr).1 (meshgrid x_vals.arr y_vals.arr).2 data
            else if x_vals.arr.shape == data.shape && y_vals.arr.shape == data.shape then
              .plotted x_vals.arr y_vals.arr data
            else .coordMismatch
        | _, _ => .coordsNotFound

/-- Result of `source_crs.to_epsg()` inside the `try` of `plot_shp_data`:
the call either raises, or returns `None`, or returns a numeric code. -/
inductive EpsgResult where
  | raises
  | value (v : Option Nat)
deriving DecidableEq

/-- The view of `gdf.crs` that `plot_shp_data` consumes: the behaviour of
`to_epsg()`, the `is_geographic` classification, and whether `ccrs.epsg(code)`
succeeds for the extracted code (that constructor can itself raise, which the
same `except` block catches). -/
structure CRSDescriptor where
  to_epsg : EpsgResult
  is_geographic : Bool
  epsg_ctor_ok : Bool
deriving DecidableEq

/-- A concrete cartopy projection value. -/
inductive Proj where
  | epsg (code : Nat)
  | plateCarree
  | mercator
deriving DecidableEq

/-- Result of the CRS fallback chain of `plot_shp_data`.  `ok p note` means
`cartopy_crs` was set to `p`, with `note = true` exactly when the advisory
"已自动识别为WGS84地理坐标系" text was appended; the error constructors are the two
`show_error_message` early returns. -/
inductive ReconcileResult where
  | ok (p : Proj) (note : Bool)
  | errUnsupportedProjected
  | errMissing
deriving DecidableEq

/-- The CRS handling block of `GeospatialTool.plot_shp_data` (lines 401-424):
`cartopy_crs` starts as `None`; if a CRS is present, `to_epsg()` is tried, a
truthy code is handed to `ccrs.epsg`; any exception in that `try` falls to the
geographic/projected classification; finally `if not cartopy_crs` reports the
missing/unrecognized-CRS error. -/
def reconcile (source_crs : Option CRSDescriptor) : ReconcileResult :=
  match source_crs with
  | none => .errMissing
  | some crs =>
      match crs.to_epsg with
      | .raises =>
          if crs.is_geographic then .ok .plateCarree true
          else .errUnsupportedProjected
      | .value none => .errMissing
      | .value (some code) =>
          if code ≠ 0 then
            if crs.epsg_ctor_ok then .ok (.epsg code) false
            else if crs.is_geographic then .ok .plateCarree true
            else .errUnsupportedProjected
          else .errMissing

/-- The slice of a GeoDataFrame that `plot_shp_data` reads: its CRS (possibly
absent) and `total_bounds = (minx, miny, maxx, maxy)`. -/
structure GeoDataFrame where
  crs : Option CRSDescriptor
  total_bounds : Int × Int × Int × Int

/-- Outcome of `plot_shp_data`: either a render (recording the projection passed
to `ax.set_extent(..., crs=...)`, the projection passed to
`gdf.plot(..., transform=...)`, and the extent list), or one of the two CRS
errors. -/
inductive ShpOutcome where
  | rendered (extent_crs : Proj) (transform_crs : Proj) (extent : List Int)
  | errUnsupported
  | errMissingCRS
deriving DecidableEq

/-- `GeospatialTool.plot_shp_data`: reconcile the CRS, then use the single
`cartopy_crs` value both for `ax.set_extent([minx, maxx, miny, maxy], crs=...)`
and for the `transform=` argument of the draw call. -/
def plot_shp_data (gdf : GeoDataFrame) : ShpOutcome :=
  match reconcile gdf.crs with
  | .errUnsupportedProjected => .errUnsupported
  | .errMissing => .errMissingCRS
  | .ok cartopy_crs _ =>
      .rendered cartopy_crs cartopy_crs
        [gdf.total_bounds.1, gdf.total_bounds.2.2.1,
         gdf.total_bounds.2.1, gdf.total_bounds.2.2.2]

/-- The mutable state of `GeospatialTool` relevant to loading: the single
currently open gridded dataset and the history list. -/
structure AppState where
  nc_dataset : Option NCDataset
  history : List String

/-- The file system / parser boundary: opening a path either yields a parsed
dataset (or GeoDataFrame) or fails (`None` models any exception raised by
`netCDF4.Dataset` / `gpd.read_file`). -/
structure FS where
  ncOpen : String → Option NCDataset
  shpOpen : String → Option GeoDataFrame

/-- The segment of a char list after the last occurrence of `sep`
(the whole list when `sep` does not occur). -/
def lastSeg (sep : Char) (cs : List Char) : List Char :=
  cs.foldl (fun acc c => if c == sep then [] else acc ++ [c]) []

/-- Python `str.lower()` on a whole string (over its char list; `String.toLower`
from the core library is extensionally the same but does not evaluate in the
kernel). -/
def strToLower (s : String) : String := String.mk (s.data.map Char.toLower)

/-- `os.path.splitext(path)[1]`: the extension (with its dot) of the basename,
where the leading dots of the basename never start an extension. -/
def extOf (path : String) : String :=
  let base := lastSeg '/' path.data
  let core := base.dropWhile (fun c => c == '.')
  if core.any (fun c => c == '.') then String.mk ('.' :: lastSeg '.' core) else ""

/-- `GeospatialTool.load_nc_file`: close any previous dataset, then try to open;
on success the new dataset becomes current; on any exception the error is shown
and `self.nc_dataset` is set to `None`.  Returns the new state and the error
message, if any. -/
def load_nc_file (fs : FS) (st : AppState) (filepath : String) :
    AppState × Option String :=
  match fs.ncOpen filepath with
  | some ds => ({ st with nc_dataset := some ds }, none)
  | none => ({ st with nc_dataset := none }, some ("读取NC文件失败 " ++ filepath))

/-- `GeospatialTool.load_shp_file`: reads and plots the shapefile; never touches
`self.nc_dataset` or the history; any exception is shown as an error. -/
def load_shp_file (fs : FS) (st : AppState) (filepath : String) :
    AppState × Option String :=
  match fs.shpOpen filepath with
  | some _ => (st, none)
  | none => (st, some ("读取SHP文件失败 " ++ filepath))

/-- The history-append tail of `load_file`:
`if filepath not in self.history: self.history.append(filepath)`. -/
def addHistory (st : AppState) (filepath : String) : AppState :=
  if filepath ∈ st.history then st
  else { st with history := st.history ++ [filepath] }

/-- `GeospatialTool.load_file`: dispatch on the lowered extension; unsupported
extensions error and return before the history update; otherwise the path is
appended to history after the format-specific loader returns. -/
def load_file (fs : FS) (st : AppState) (filepath : String) :
    AppState × Option String :=
  if strToLower (extOf filepath) = ".nc" then
    let r := load_nc_file fs st filepath
    (addHistory r.1 filepath, r.2)
  else if strToLower (extOf filepath) = ".shp" then
    let r := load_shp_file fs st filepath
    (addHistory r.1 filepath, r.2)
  else (st, some ("不支持的文件类型: " ++ (extOf filepath)))

/-- `index_map` completeness over the non-spatial dimensions of a variable
(the condition under which the `slice_obj` loop raises no `KeyError`). -/
def completeB (var : NCVar) (x_dim y_dim : String) (index_map : List (String × Nat)) : Bool :=
  var.dims.all fun d => (d == x_dim || d == y_dim) || (index_map.lookup d).isSome

/-- Every pinned index of `index_map` is within its dimension's size
(the condition under which the numpy indexing raises no `IndexError`). -/
def inRangeB (var : NCVar) (x_dim y_dim : String) (index_map : List (String × Nat)) : Bool :=
  (var.dims.zip var.shape).all fun p =>
    (p.1 == x_dim || p.1 == y_dim) || decide ((index_map.lookup p.1).getD 0 < p.2)

/-- The reduction "returns an array of rank `r`": `sliceVar` succeeded and the
resulting array's rank is `r`. -/
def sliceRankIs (var : NCVar) (x_dim y_dim : String) (index_map : List (String × Nat))
    (r : Nat) : Bool :=
  match sliceVar var x_dim y_dim index_map with
  | .ok a => a.shape.length == r
  | _ => false

/-- The shape of the reduced array produced by `sliceVar` (defaulting to `[]`
when reduction raised), as reported by the ShapeError diagnostic. -/
def producedShape (var : NCVar) (x_dim y_dim : String)
    (index_map : List (String × Nat)) : List Nat :=
  match sliceVar var x_dim y_dim index_map with
  | .ok a => a.shape
  | _ => []

/-- Discriminator: is a plot outcome the ShapeError diagnostic? -/
def isShapeErr : PlotOutcome → Bool
  | .shapeErr _ => true
  | _ => false

/-- First-some choice on optional coordinate arrays. -/
def oor (a b : Option PyArr) : Option PyArr :=
  match a with
  | some v => some v
  | none => b

/-- The value a single dimension name contributes to a role: its same-named
variable's array when the name matches the role's name set and that variable
exists, nothing otherwise. -/
def rolePick (ds : NCDataset) (pats : List String) (d : String) : Option PyArr :=
  if matchesRole pats d && (lookupVar ds d).isSome
  then (lookupVar ds d).map NCVar.arr else none

/-- The resolved coordinate for a role: the contribution of the last dimension
(in the variable's dimension order) that matches the role and has a same-named
coordinate variable in the dataset. -/
def lastPick (ds : NCDataset) (pats : List String) : List String → Option PyArr
  | [] => none
  | d :: rest => oor (lastPick ds pats rest) (rolePick ds pats d)

/-- Concrete dataset for the C5 witness: `temp(lat, lon)` with 1-D coordinate
variables `lat` (length 2) and `lon` (length 3). -/
def vLatW : NCVar := ⟨["lat"], [2], fun idx => idx.headD 0⟩

def vLonW : NCVar := ⟨["lon"], [3], fun idx => 10 + idx.headD 0⟩

def vTempW : NCVar := ⟨["lat", "lon"], [2, 3], fun _ => 0⟩

def dsW5 : NCDataset := ⟨[("lat", vLatW), ("lon", vLonW), ("temp", vTempW)]⟩

/-- Further rank-2 variables for the C5 witness: `temp2(lon, lat)` with the
reversed dimension order, and `temp3(xy, xy)` whose dimension name matches both
role patterns at once, with its 1-D coordinate variable `xy`. -/
def vTemp2W : NCVar := ⟨["lon", "lat"], [3, 2], fun _ => 0⟩

def vXYW : NCVar := ⟨["xy"], [2], fun idx => 20 + idx.headD 0⟩

def vTemp3W : NCVar := ⟨["xy", "xy"], [2, 2], fun _ => 0⟩

def dsW5b : NCDataset := ⟨[("xy", vXYW)]⟩

/-- Concrete dataset for the C10 witness: `temp(lonA, latB)` whose matched
coordinate variables `lonA` and `latB` are themselves 2-D. -/
def vLonW10 : NCVar := ⟨["lonA"], [2, 2], fun _ => 0⟩

def vLatW10 : NCVar := ⟨["latB"], [2, 2], fun _ => 1⟩

def vTempW10 : NCVar := ⟨["lonA", "latB"], [2, 2], fun _ => 2⟩

def dsW10 : NCDataset := ⟨[("lonA", vLonW10), ("latB", vLatW10), ("temp", vTempW10)]⟩

/-- The slice entry a single dimension receives when `index_map` is complete:
a full slice on the spatial axes, the pinned index elsewhere. -/
def mkEntry (x_dim y_dim : String) (index_map : List (String × Nat)) (d : String) :
    Option Nat :=
  if d == x_dim || d == y_dim then none else some ((index_map.lookup d).getD 0)

/-- Concrete data for the C6 witness: `temp(t, la, lo)` reduced at `t = 1`, with
coordinate variables `lo` and `la` that are neither 1-D nor shaped like the 2-D
slice. -/
def vW6 : NCVar := ⟨["t", "la", "lo"], [3, 4, 5], fun _ => 0⟩

def vXW6 : NCVar := ⟨["lo"], [9, 9], fun _ => 0⟩

def vYW6 : NCVar := ⟨["la"], [2, 2], fun _ => 0⟩

def dsW6 : NCDataset := ⟨[("lo", vXW6), ("la", vYW6)]⟩

def dataW6 : PyArr :=
  match sliceVar vW6 "lo" "la" [("t", 1)] with
  | .ok a => a
  | _ => ⟨[], fun _ => 0⟩

/-- Claim C1, counterexample: a present geographic CRS descriptor whose EPSG
extraction completes but yields no numeric code is answered with the fatal
missing/unrecognized-CRS error, not the plate carrée fallback the claim
requires. -/
theorem C1_counterexample :
    reconcile (some ⟨.value none, true, true⟩) = .errMissing ∧
    reconcile (some ⟨.value none, true, true⟩) ≠ .ok .plateCarree true := by
  decide

/-- Claim C1, amended: classification only happens when the EPSG attempt raises
(either `to_epsg()` itself or the `ccrs.epsg` construction); a geographic
descriptor then resolves to plate carrée with the advisory note.  When
extraction completes but yields no code, the fatal missing-CRS error is
reported instead, even for geographic descriptors. -/
theorem C1_theorem (d : CRSDescriptor) (hg : d.is_geographic = true) :
    (d.to_epsg = .raises → reconcile (some d) = .ok .plateCarree true) ∧
    (∀ c, c ≠ 0 → d.to_epsg = .value (some c) → d.epsg_ctor_ok = false →
      reconcile (some d) = .ok .plateCarree true) ∧
    (d.to_epsg = .value none → reconcile (some d) = .errMissing) := by
  refine ⟨?_, ?_, ?_⟩
  · intro h
    simp [reconcile, h, hg]
  · intro c hc h hk
    simp [reconcile, h, hg, hk, hc]
  · intro h
    simp [reconcile, h]

/-- Witness for C1 at concrete descriptors: a geographic descriptor whose
extraction raises gets the plate carrée fallback with the note; one whose
extraction returns no code gets the missing-CRS error. -/
theorem C1_witness :
    reconcile (some ⟨.raises, true, true⟩) = .ok .plateCarree true ∧
    reconcile (some ⟨.value none, true, true⟩) = .errMissing :=
  ⟨(C1_theorem ⟨.raises, true, true⟩ rfl).1 rfl,
   (C1_theorem ⟨.value none, true, true⟩ rfl).2.2 rfl⟩

/-- Claim C7, counterexample: a projected descriptor whose EPSG extraction
completes but yields no code gets the missing/unrecognized-CRS error, not
`UnsupportedProjected` as the claim requires. -/
theorem C7_counterexample :
    reconcile (some ⟨.value none, false, true⟩) = .errMissing ∧
    reconcile (some ⟨.value none, false, true⟩) ≠ .errUnsupportedProjected := by
  decide

/-- Claim C7, amended: a projected descriptor that is not EPSG-resolved never
yields a projection — when the EPSG attempt raises the result is
`UnsupportedProjected`; when extraction completes with no code the result is the
missing-CRS error; any successful resolution is EPSG-backed by the extracted
code. -/
theorem C7_theorem (d : CRSDescriptor) (hp : d.is_geographic = false) :
    (d.to_epsg = .raises → reconcile (some d) = .errUnsupportedProjected) ∧
    (∀ c, c ≠ 0 → d.to_epsg = .value (some c) → d.epsg_ctor_ok = false →
      reconcile (some d) = .errUnsupportedProjected) ∧
    (d.to_epsg = .value none → reconcile (some d) = .errMissing) ∧
    (∀ p note, reconcile (some d) = .ok p note →
      ∃ c, c ≠ 0 ∧ d.to_epsg = .value (some c) ∧ d.epsg_ctor_ok = true ∧ p = .epsg c) := by
  refine ⟨?_, ?_, ?_, ?_⟩
  · intro h
    simp [reconcile, h, hp]
  · intro c hc h hk
    simp [reconcile, h, hp, hk, hc]
  · intro h
    simp [reconcile, h]
  · intro p note h
    match he : d.to_epsg with
    | .raises =>
        rw [reconcile, he] at h
        simp [hp] at h
    | .value none =>
        rw [reconcile, he] at h
        simp at h
    | .value (some c) =>
        by_cases hc : c = 0
        · subst hc
          rw [reconcile, he] at h
          simp at h
        · by_cases hk : d.epsg_ctor_ok = true
          · rw [reconcile, he] at h
            simp [hc, hk] at h
            exact ⟨c, hc, rfl, hk, h.1.symm⟩
          · rw [Bool.not_eq_true] at hk
            rw [reconcile, he] at h
            simp [hc, hk, hp] at h

/-- Witness for C7 at concrete descriptors: a projected descriptor with raising
extraction is refused as unsupported; one with no code gets the missing-CRS
error. -/
theorem C7_witness :
    reconcile (some ⟨.raises, false, true⟩) = .errUnsupportedProjected ∧
    reconcile (some ⟨.value none, false, true⟩) = .errMissing :=
  ⟨(C7_theorem ⟨.raises, false, true⟩ rfl).1 rfl,
   (C7_theorem ⟨.value none, false, true⟩ rfl).2.2.1 rfl⟩

/-- Claim C9: whenever a vector dataset is rendered, the projection passed as
the CRS of the display-extent call and the projection passed as the render
transform are the identical resolved value. -/
theorem C9_theorem (gdf : GeoDataFrame) (e t : Proj) (ext : List Int)
    (h : plot_shp_data gdf = .rendered e t ext) : e = t := by
  unfold plot_shp_data at h
  split at h
  · exact ShpOutcome.noConfusion h
  · exact ShpOutcome.noConfusion h
  · injection h with h1 h2 h3
    rw [← h1, ← h2]

/-- Witness for C9: a concrete EPSG:4326 shapefile renders, and the theorem
applies to its render call. -/
theorem C9_witness : Proj.epsg 4326 = Proj.epsg 4326 :=
  C9_theorem ⟨some ⟨.value (some 4326), true, true⟩, (0, 0, 1, 1)⟩
    (.epsg 4326) (.epsg 4326) [0, 1, 0, 1] (by decide)

/-- Claim C2, counterexample: with a dataset open, a failed load does not keep
it as the current dataset — the current-dataset reference changes (it is
cleared). -/
theorem C2_counterexample :
    (load_nc_file ⟨fun _ => none, fun _ => none⟩ ⟨some ⟨[]⟩, []⟩ "data.nc").1.nc_dataset ≠
      (⟨some ⟨[]⟩, []⟩ : AppState).nc_dataset := by
  intro h
  exact Option.noConfusion h

/-- Claim C2, amended: on a failed load the previously open dataset is closed
and the current-dataset reference is reset to empty (not retained); the failure
is surfaced as a typed error message, and control returns normally (the
operation is total — the process never terminates). -/
theorem C2_theorem (fs : FS) (st : AppState) (filepath : String)
    (hfail : fs.ncOpen filepath = none) :
    (load_nc_file fs st filepath).1.nc_dataset = none ∧
    ((load_nc_file fs st filepath).2).isSome = true := by
  simp [load_nc_file, hfail]

/-- Witness for C2 at a concrete failing file system. -/
theorem C2_witness :
    (load_nc_file ⟨fun _ => none, fun _ => none⟩ ⟨none, []⟩ "a.nc").1.nc_dataset = none ∧
    ((load_nc_file ⟨fun _ => none, fun _ => none⟩ ⟨none, []⟩ "a.nc").2).isSome = true :=
  C2_theorem ⟨fun _ => none, fun _ => none⟩ ⟨none, []⟩ "a.nc" rfl

/-- `load_nc_file` never changes the history list. -/
theorem load_nc_history (fs : FS) (st : AppState) (p : String) :
    ((load_nc_file fs st p).1).history = st.history := by
  cases h : fs.ncOpen p <;> simp [load_nc_file, h]

/-- `load_shp_file` never changes the history list. -/
theorem load_shp_history (fs : FS) (st : AppState) (p : String) :
    ((load_shp_file fs st p).1).history = st.history := by
  cases h : fs.shpOpen p <;> simp [load_shp_file, h]

/-- Membership after the history-append step. -/
theorem mem_addHistory (st : AppState) (p q : String) :
    q ∈ (addHistory st p).history ↔ q ∈ st.history ∨ q = p := by
  unfold addHistory
  by_cases h : p ∈ st.history
  · simp only [if_pos h]
    constructor
    · exact Or.inl
    · rintro (hq | rfl)
      · exact hq
      · exact h
  · simp only [if_neg h]
    simp

/-- Claim C3, counterexample: a `.nc` path whose open fails is still recorded in
history. -/
theorem C3_counterexample :
    (⟨fun _ => none, fun _ => none⟩ : FS).ncOpen "bad.nc" = none ∧
    "bad.nc" ∈ (load_file ⟨fun _ => none, fun _ => none⟩ ⟨none, []⟩ "bad.nc").1.history :=
  ⟨rfl, by decide⟩

/-- Claim C3, amended: a path is reported to the history collaborator if and
only if it was already recorded or its (lowercased) extension is a supported
format — independently of whether the open succeeded; unsupported-extension
paths are never recorded. -/
theorem C3_theorem (fs : FS) (st : AppState) (filepath q : String) :
    q ∈ (load_file fs st filepath).1.history ↔
      q ∈ st.history ∨
        (q = filepath ∧
          (strToLower (extOf filepath) = ".nc" ∨ strToLower (extOf filepath) = ".shp")) := by
  unfold load_file
  by_cases h1 : strToLower (extOf filepath) = ".nc"
  · simp only [if_pos h1]
    rw [mem_addHistory, load_nc_history]
    simp [h1]
  · by_cases h2 : strToLower (extOf filepath) = ".shp"
    · simp only [if_neg h1, if_pos h2]
      rw [mem_addHistory, load_shp_history]
      simp [h2]
    · simp only [if_neg h1, if_neg h2]
      simp [h1, h2]

theorem oor_assoc (a b c : Option PyArr) : oor (oor a b) c = oor a (oor b c) := by
  cases a <;> rfl

theorem oor_none (a : Option PyArr) : oor a none = a := by
  cases a <;> rfl

theorem findStep_fst (ds : NCDataset) (acc : Option PyArr × Option PyArr) (d : String) :
    (findStep ds acc d).1 = oor (rolePick ds possible_lon_names d) acc.1 := by
  unfold findStep rolePick
  cases h : lookupVar ds d
  · simp [h, oor]
  · by_cases hm : matchesRole possible_lon_names d = true
    · simp [h, hm, oor]
    · simp [h, hm, oor]

theorem findStep_snd (ds : NCDataset) (acc : Option PyArr × Option PyArr) (d : String) :
    (findStep ds acc d).2 = oor (rolePick ds possible_lat_names d) acc.2 := by
  unfold findStep rolePick
  cases h : lookupVar ds d
  · simp [h, oor]
  · by_cases hm : matchesRole possible_lat_names d = true
    · simp [h, hm, oor]
    · simp [h, hm, oor]

theorem findRaw_fold (ds : NCDataset) :
    ∀ (dims : List String) (acc : Option PyArr × Option PyArr),
      dims.foldl (findStep ds) acc =
        (oor (lastPick ds possible_lon_names dims) acc.1,
         oor (lastPick ds possible_lat_names dims) acc.2) := by
  intro dims
  induction dims with
  | nil =>
      intro acc
      simp [lastPick, oor]
  | cons d rest ih =>
      intro acc
      rw [List.foldl_cons, ih]
      simp only [lastPick, oor_assoc, findStep_fst, findStep_snd]

/-- Claim C8, counterexample: the substring matcher assigns a single dimension
name to both roles at once — the name "xy" matches the longitude set (via "x")
and the latitude set (via "y"), refuting "a dimension matches at most one
role". -/
theorem C8_counterexample :
    matchesRole possible_lon_names "xy" = true ∧
    matchesRole possible_lat_names "xy" = true := by
  decide

/-- Claim C8, amended: each dimension name is tested case-insensitively by
substring against both role name-sets (so one dimension may match both roles);
for each role the resolved coordinate is the one of the last dimension, in the
variable's dimension order, that matches that role and has a same-named
coordinate variable in the dataset; a matching dimension with no same-named
variable contributes nothing. -/
theorem C8_theorem (ds : NCDataset) (var : NCVar) :
    findRaw ds var.dims =
      (lastPick ds possible_lon_names var.dims,
       lastPick ds possible_lat_names var.dims) := by
  unfold findRaw
  rw [findRaw_fold]
  rw [oor_none, oor_none]

/-- Claim C5: for every variable whose spatial-dimension resolution finds both a
longitude and a latitude coordinate array — its dimension names matching the
role patterns with same-named coordinate variables present, in either dimension
order, including names matching both roles at once — when both arrays are 1-D
of lengths `n` (longitude) and `m` (latitude), the resolver returns their
meshgrid: two arrays of shape `(m, n)` whose element `(i, j)` is
`(x_coords[j], y_coords[i])`. -/
theorem C5_theorem (ds : NCDataset) (var : NCVar) (x_coords y_coords : PyArr) (m n : Nat)
    (hfound : findRaw ds var.dims = (some x_coords, some y_coords))
    (hsx : x_coords.shape = [n]) (hsy : y_coords.shape = [m]) :
    find_nc_coords ds var =
        (some (meshgrid x_coords y_coords).1, some (meshgrid x_coords y_coords).2) ∧
      (meshgrid x_coords y_coords).1.shape = [m, n] ∧
      (meshgrid x_coords y_coords).2.shape = [m, n] ∧
      ∀ i j, i < m → j < n →
        (meshgrid x_coords y_coords).1.get [i, j] = x_coords.get [j] ∧
        (meshgrid x_coords y_coords).2.get [i, j] = y_coords.get [i] := by
  refine ⟨?_, ?_, ?_, ?_⟩
  · unfold find_nc_coords
    rw [hfound]
    simp [PyArr.ndim, hsx, hsy]
  · simp [meshgrid, hsx, hsy]
  · simp [meshgrid, hsx, hsy]
  · exact fun i j hi hj => ⟨rfl, rfl⟩

/-- Witness for C5 at concrete datasets: the `(lat, lon)`-ordered variable (with
the element-placement checks), the `(lon, lat)`-ordered variable, and the
dual-role `(xy, xy)` variable all resolve to their meshgrid. -/
theorem C5_witness :
    (find_nc_coords dsW5 vTempW =
        (some (meshgrid vLonW.arr vLatW.arr).1, some (meshgrid vLonW.arr vLatW.arr).2) ∧
      (meshgrid vLonW.arr vLatW.arr).1.shape = [2, 3] ∧
      (meshgrid vLonW.arr vLatW.arr).1.get [1, 2] = vLonW.arr.get [2] ∧
      (meshgrid vLonW.arr vLatW.arr).2.get [1, 2] = vLatW.arr.get [1]) ∧
    find_nc_coords dsW5 vTemp2W =
        (some (meshgrid vLonW.arr vLatW.arr).1, some (meshgrid vLonW.arr vLatW.arr).2) ∧
    find_nc_coords dsW5b vTemp3W =
        (some (meshgrid vXYW.arr vXYW.arr).1, some (meshgrid vXYW.arr vXYW.arr).2) := by
  have h1 := C5_theorem dsW5 vTempW vLonW.arr vLatW.arr 2 3 rfl rfl rfl
  have h2 := C5_theorem dsW5 vTemp2W vLonW.arr vLatW.arr 2 3 rfl rfl rfl
  have h3 := C5_theorem dsW5b vTemp3W vXYW.arr vXYW.arr 2 2 rfl rfl rfl
  exact ⟨⟨h1.1, h1.2.1, (h1.2.2.2 1 2 (by decide) (by decide)).1,
    (h1.2.2.2 1 2 (by decide) (by decide)).2⟩, h2.1, h3.1⟩

/-- Reduction of `plot_nc_variable` once the variable lookup is known. -/
theorem plot_nc_variable_some (ds : NCDataset) (var_name : String) (v : NCVar)
    (h : lookupVar ds var_name = some v) :
    plot_nc_variable ds var_name =
      if (viewData v).ndim ≠ 2 then .shapeErr (viewData v).shape
      else
        match find_nc_coords ds v with
        | (some lon, some lat) => .plotted lon lat (viewData v)
        | _ => .coordsNotFound := by
  unfold plot_nc_variable
  rw [h]

/-- Claim C10: the automatic rank-2 path never signals the coordinate-mismatch
error; and when the matched longitude/latitude arrays are not both 1-D they are
handed to the render call exactly as found, with no shape-compatibility check
against the 2-D data slice. -/
theorem C10_theorem (ds : NCDataset) (var_name : String) :
    plot_nc_variable ds var_name ≠ .coordMismatch ∧
    ∀ v lon lat, lookupVar ds var_name = some v →
      findRaw ds v.dims = (some lon, some lat) →
      (lon.ndim = 1 ∧ lat.ndim = 1 → False) →
      (viewData v).ndim = 2 →
      plot_nc_variable ds var_name = .plotted lon lat (viewData v) := by
  constructor
  · intro h
    unfold plot_nc_variable at h
    split at h
    · exact PlotOutcome.noConfusion h
    · split at h
      · exact PlotOutcome.noConfusion h
      · split at h
        · exact PlotOutcome.noConfusion h
        · exact PlotOutcome.noConfusion h
  · intro v lon lat hv hraw hnot h2
    have hcond : (lon.ndim == 1 && lat.ndim == 1) = false := by
      cases e1 : lon.ndim == 1 <;> cases e2 : lat.ndim == 1 <;>
        simp_all [beq_iff_eq]
    have hcoords : find_nc_coords ds v = (some lon, some lat) := by
      unfold find_nc_coords
      rw [hraw]
      simp [hcond]
    rw [plot_nc_variable_some ds var_name v hv]
    rw [if_neg (by simp [h2]), hcoords]

/-- Witness for C10: with 2-D coordinate variables the plot proceeds with them
as-is and no coordinate-mismatch error is possible. -/
theorem C10_witness :
    plot_nc_variable dsW10 "temp" ≠ .coordMismatch ∧
    plot_nc_variable dsW10 "temp" = .plotted vLonW10.arr vLatW10.arr (viewData vTempW10) := by
  refine ⟨(C10_theorem dsW10 "temp").1, ?_⟩
  exact (C10_theorem dsW10 "temp").2 vTempW10 vLonW10.arr vLatW10.arr rfl rfl
    (by decide) (by decide)

theorem buildSlice_complete (x_dim y_dim : String) (index_map : List (String × Nat)) :
    ∀ dims : List String,
      (dims.all fun d => (d == x_dim || d == y_dim) || (index_map.lookup d).isSome) = true →
      buildSlice x_dim y_dim index_map dims =
        some (dims.map (mkEntry x_dim y_dim index_map)) := by
  intro dims
  induction dims with
  | nil => intro _; rfl
  | cons d rest ih =>
      intro h
      rw [List.all_cons, Bool.and_eq_true] at h
      obtain ⟨h1, h2⟩ := h
      unfold buildSlice
      by_cases hd : (d == x_dim || d == y_dim) = true
      · rw [if_pos hd, ih h2]
        simp [mkEntry, hd]
      · have hs : (index_map.lookup d).isSome = true := by
          rcases (Bool.or_eq_true _ _).mp h1 with h | h
          · exact absurd h hd
          · exact h
        cases hl : index_map.lookup d with
        | none => rw [hl] at hs; exact absurd hs (by simp)
        | some i =>
            rw [if_neg hd]
            simp [ih h2, mkEntry, hd, hl]

theorem checkBounds_complete (x_dim y_dim : String) (index_map : List (String × Nat)) :
    ∀ (dims : List String) (shape : List Nat), dims.length = shape.length →
      ((dims.zip shape).all fun p =>
        (p.1 == x_dim || p.1 == y_dim) ||
          decide ((index_map.lookup p.1).getD 0 < p.2)) = true →
      checkBounds (dims.map (mkEntry x_dim y_dim index_map)) shape = true := by
  intro dims
  induction dims with
  | nil =>
      intro shape hlen _
      cases shape with
      | nil => rfl
      | cons s sh => simp at hlen
  | cons d rest ih =>
      intro shape hlen h
      cases shape with
      | nil => simp at hlen
      | cons s sh =>
          rw [List.zip_cons_cons, List.all_cons, Bool.and_eq_true] at h
          obtain ⟨h1, h2⟩ := h
          have hlen2 : rest.length = sh.length := by
            simpa using hlen
          simp only [List.map_cons]
          by_cases hd : (d == x_dim || d == y_dim) = true
          · simp only [mkEntry, if_pos hd, checkBounds]
            exact ih sh hlen2 h2
          · have hb : ((index_map.lookup d).getD 0 < s) := by
              rcases (Bool.or_eq_true _ _).mp h1 with h | h
              · exact absurd h hd
              · exact of_decide_eq_true h
            simp only [mkEntry, if_neg hd, checkBounds]
            rw [ih sh hlen2 h2]
            simp [hb]

theorem keptShape_len (x_dim y_dim : String) (index_map : List (String × Nat)) :
    ∀ (dims : List String) (shape : List Nat), dims.length = shape.length →
      (keptShape (dims.map (mkEntry x_dim y_dim index_map)) shape).length =
        dims.countP (fun d => d == x_dim || d == y_dim) := by
  intro dims
  induction dims with
  | nil =>
      intro shape hlen
      cases shape with
      | nil => rfl
      | cons s sh => simp at hlen
  | cons d rest ih =>
      intro shape hlen
      cases shape with
      | nil => simp at hlen
      | cons s sh =>
          have hlen2 : rest.length = sh.length := by simpa using hlen
          simp only [List.map_cons, List.countP_cons]
          by_cases hd : (d == x_dim || d == y_dim) = true
          · simp only [mkEntry, if_pos hd, keptShape, List.length_cons, ih sh hlen2, hd]
            simp
          · simp only [mkEntry, if_neg hd, keptShape, ih sh hlen2]
            simp [hd]

theorem countP_or_split (x_dim y_dim : String) (hne : x_dim ≠ y_dim) :
    ∀ dims : List String,
      dims.countP (fun d => d == x_dim || d == y_dim) =
        dims.countP (fun d => d == x_dim) + dims.countP (fun d => d == y_dim) := by
  intro dims
  induction dims with
  | nil => rfl
  | cons d rest ih =>
      simp only [List.countP_cons, ih]
      by_cases hx : (d == x_dim) = true
      · have hy : (d == y_dim) = false := by
          rw [beq_eq_false_iff_ne]
          rw [beq_iff_eq] at hx
          rw [hx]
          exact hne
        simp [hx, hy]
        omega
      · by_cases hy : (d == y_dim) = true
        · simp [hx, hy]
          omega
        · simp [hx, hy]

theorem countP_single (x_dim : String) :
    ∀ dims : List String, dims.Nodup → x_dim ∈ dims →
      dims.countP (fun d => d == x_dim) = 1 := by
  intro dims
  induction dims with
  | nil => intro _ h; simp at h
  | cons d rest ih =>
      intro hnd hm
      rw [List.nodup_cons] at hnd
      obtain ⟨hdn, hrest⟩ := hnd
      rw [List.countP_cons]
      by_cases he : d = x_dim
      · subst he
        have h0 : rest.countP (fun e => e == d) = 0 := by
          rw [List.countP_eq_zero]
          intro a ha
          simp only [beq_iff_eq]
          intro hae
          exact hdn (hae ▸ ha)
        simp [h0]
      · have hm2 : x_dim ∈ rest := by
          rcases List.mem_cons.mp hm with h | h
          · exact absurd h.symm he
          · exact h
        simp [he, ih hrest hm2]

theorem buildSlice_missing (x_dim y_dim : String) (index_map : List (String × Nat)) :
    ∀ (dims : List String) (d : String), d ∈ dims →
      (d == x_dim) = false → (d == y_dim) = false → index_map.lookup d = none →
      buildSlice x_dim y_dim index_map dims = none := by
  intro dims
  induction dims with
  | nil => intro d h; simp at h
  | cons e rest ih =>
      intro d hm hx hy hl
      unfold buildSlice
      rcases List.mem_cons.mp hm with rfl | he
      · rw [if_neg (by simp [hx, hy]), hl]
      · by_cases hsp : (e == x_dim || e == y_dim) = true
        · rw [if_pos hsp, ih d he hx hy hl]
          rfl
        · rw [if_neg hsp]
          cases hl2 : index_map.lookup e
          · rfl
          · rw [ih d he hx hy hl]
            rfl

theorem checkBounds_oob (x_dim y_dim : String) (index_map : List (String × Nat)) :
    ∀ (dims : List String) (shape : List Nat) (d : String) (s : Nat),
      (d, s) ∈ dims.zip shape → (d == x_dim) = false → (d == y_dim) = false →
      s ≤ (index_map.lookup d).getD 0 →
      checkBounds (dims.map (mkEntry x_dim y_dim index_map)) shape = false := by
  intro dims
  induction dims with
  | nil => intro shape d s h; simp at h
  | cons e rest ih =>
      intro shape d s hm hx hy hle
      cases shape with
      | nil => simp at hm
      | cons s0 sh =>
          rw [List.zip_cons_cons, List.mem_cons] at hm
          simp only [List.map_cons]
          rcases hm with he | he
          · injection he with hd hs0
            subst hd
            subst hs0
            have hnb : ¬((index_map.lookup d).getD 0 < s) := by omega
            simp [mkEntry, hx, hy, checkBounds, hnb]
          · by_cases hsp : (e == x_dim || e == y_dim) = true
            · simp only [mkEntry, if_pos hsp, checkBounds]
              exact ih sh d s he hx hy hle
            · simp only [mkEntry, if_neg hsp, checkBounds]
              rw [ih sh d s he hx hy hle]
              simp

/-- Reduction of the explicit N-D path when slicing raised a `KeyError`. -/
theorem plot_of_keyErr (ds : NCDataset) (var : NCVar) (index_map : List (String × Nat))
    (x_dim y_dim : String)
    (h : sliceVar var x_dim y_dim index_map = .keyErr) :
    plot_high_dim_variable_with_coords ds var index_map x_dim y_dim = .genericErr := by
  unfold plot_high_dim_variable_with_coords
  rw [h]

/-- Reduction of the explicit N-D path when slicing raised an `IndexError`. -/
theorem plot_of_idxErr (ds : NCDataset) (var : NCVar) (index_map : List (String × Nat))
    (x_dim y_dim : String)
    (h : sliceVar var x_dim y_dim index_map = .idxErr) :
    plot_high_dim_variable_with_coords ds var index_map x_dim y_dim = .genericErr := by
  unfold plot_high_dim_variable_with_coords
  rw [h]

/-- Reduction of the explicit N-D path when slicing succeeded. -/
theorem plot_of_ok (ds : NCDataset) (var : NCVar) (index_map : List (String × Nat))
    (x_dim y_dim : String) (data : PyArr)
    (h : sliceVar var x_dim y_dim index_map = .ok data) :
    plot_high_dim_variable_with_coords ds var index_map x_dim y_dim =
      (if data.ndim ≠ 2 then .shapeErr data.shape
       else
         match lookupVar ds x_dim, lookupVar ds y_dim with
         | some x_vals, some y_vals =>
             if x_vals.arr.ndim == 1 && y_vals.arr.ndim == 1 then
               .plotted (meshgrid x_vals.arr y_vals.arr).1
                 (meshgrid x_vals.arr y_vals.arr).2 data
             else if x_vals.arr.shape == data.shape && y_vals.arr.shape == data.shape then
               .plotted x_vals.arr y_vals.arr data
             else .coordMismatch
         | _, _ => .coordsNotFound) := by
  unfold plot_high_dim_variable_with_coords
  rw [h]

/-- Claim C4, counterexample: an empty (hence incomplete) `index_map` on a
rank-3 variable yields the generic caught-exception error (the KeyError path),
not the ShapeError diagnostic with the produced shape that the claim
requires. -/
theorem C4_counterexample :
    plot_high_dim_variable_with_coords ⟨[]⟩ ⟨["t", "la", "lo"], [4, 10, 20], fun _ => 0⟩
        [] "lo" "la" = .genericErr ∧
    isShapeErr (plot_high_dim_variable_with_coords ⟨[]⟩
        ⟨["t", "la", "lo"], [4, 10, 20], fun _ => 0⟩ [] "lo" "la") = false :=
  ⟨rfl, rfl⟩

/-- Claim C4, amended: for a variable of rank > 2 with distinct dimension names
and chosen axes in its dimension list, a complete in-range `index_map` with
`x_dim ≠ y_dim` reduces to an array of rank exactly 2; with `x_dim = y_dim` the
result is rank 1 and the ShapeError diagnostic reports the produced shape; an
incomplete or out-of-range `index_map` ends in the generic caught-exception
error (the KeyError/IndexError path) — not the ShapeError diagnostic — and in
every case nothing of rank other than 2 is ever plotted and no exception
escapes. -/
theorem C4_theorem (ds : NCDataset) (var : NCVar) (x_dim y_dim : String)
    (index_map : List (String × Nat))
    (hlen : var.dims.length = var.shape.length)
    (hnd : var.dims.Nodup)
    (hx : x_dim ∈ var.dims) (hy : y_dim ∈ var.dims)
    (hrank : 2 < var.dims.length) :
    (x_dim ≠ y_dim → completeB var x_dim y_dim index_map = true →
      inRangeB var x_dim y_dim index_map = true →
      sliceRankIs var x_dim y_dim index_map 2 = true) ∧
    (x_dim = y_dim → completeB var x_dim y_dim index_map = true →
      inRangeB var x_dim y_dim index_map = true →
      plot_high_dim_variable_with_coords ds var index_map x_dim y_dim =
        .shapeErr (producedShape var x_dim y_dim index_map)) ∧
    (∀ d, d ∈ var.dims → (d == x_dim) = false → (d == y_dim) = false →
      index_map.lookup d = none →
      plot_high_dim_variable_with_coords ds var index_map x_dim y_dim = .genericErr) ∧
    (∀ d s, completeB var x_dim y_dim index_map = true →
      (d, s) ∈ var.dims.zip var.shape → (d == x_dim) = false → (d == y_dim) = false →
      s ≤ (index_map.lookup d).getD 0 →
      plot_high_dim_variable_with_coords ds var index_map x_dim y_dim = .genericErr) ∧
    (∀ lon lat a,
      plot_high_dim_variable_with_coords ds var index_map x_dim y_dim =
        .plotted lon lat a → a.shape.length = 2) := by
  refine ⟨?_, ?_, ?_, ?_, ?_⟩
  · intro hne hc hr
    have hb := buildSlice_complete x_dim y_dim index_map var.dims hc
    have hcb := checkBounds_complete x_dim y_dim index_map var.dims var.shape hlen hr
    have hok : sliceVar var x_dim y_dim index_map =
        .ok ⟨keptShape (var.dims.map (mkEntry x_dim y_dim index_map)) var.shape,
             fun idx =>
               var.get (expandIdx (var.dims.map (mkEntry x_dim y_dim index_map)) idx)⟩ := by
      unfold sliceVar
      rw [hb]
      simp [hcb]
    unfold sliceRankIs
    rw [hok]
    show ((keptShape (var.dims.map (mkEntry x_dim y_dim index_map)) var.shape).length
      == 2) = true
    rw [keptShape_len x_dim y_dim index_map var.dims var.shape hlen,
      countP_or_split x_dim y_dim hne var.dims,
      countP_single x_dim var.dims hnd hx,
      countP_single y_dim var.dims hnd hy]
    rfl
  · intro heq hc hr
    subst heq
    have hb := buildSlice_complete x_dim x_dim index_map var.dims hc
    have hcb := checkBounds_complete x_dim x_dim index_map var.dims var.shape hlen hr
    have hok : sliceVar var x_dim x_dim index_map =
        .ok ⟨keptShape (var.dims.map (mkEntry x_dim x_dim index_map)) var.shape,
             fun idx =>
               var.get (expandIdx (var.dims.map (mkEntry x_dim x_dim index_map)) idx)⟩ := by
      unfold sliceVar
      rw [hb]
      simp [hcb]
    have hk1 : (keptShape (var.dims.map (mkEntry x_dim x_dim index_map)) var.shape).length
        = 1 := by
      rw [keptShape_len x_dim x_dim index_map var.dims var.shape hlen]
      have hcg : var.dims.countP (fun d => d == x_dim || d == x_dim) =
          var.dims.countP (fun d => d == x_dim) := by
        simp only [Bool.or_self]
      rw [hcg, countP_single x_dim var.dims hnd hx]
    rw [plot_of_ok ds var index_map x_dim x_dim _ hok]
    rw [if_pos (by simp [PyArr.ndim, hk1])]
    unfold producedShape
    rw [hok]
  · intro d hm hx2 hy2 hl
    have hkey : sliceVar var x_dim y_dim index_map = .keyErr := by
      unfold sliceVar
      rw [buildSlice_missing x_dim y_dim index_map var.dims d hm hx2 hy2 hl]
    exact plot_of_keyErr ds var index_map x_dim y_dim hkey
  · intro d s hc hm hx2 hy2 hle
    have hb := buildSlice_complete x_dim y_dim index_map var.dims hc
    have hcf := checkBounds_oob x_dim y_dim index_map var.dims var.shape d s hm hx2 hy2 hle
    have hidx : sliceVar var x_dim y_dim index_map = .idxErr := by
      unfold sliceVar
      rw [hb]
      simp [hcf]
    exact plot_of_idxErr ds var index_map x_dim y_dim hidx
  · intro lon lat a h
    unfold plot_high_dim_variable_with_coords at h
    split at h
    · exact PlotOutcome.noConfusion h
    · exact PlotOutcome.noConfusion h
    · rename_i data hsv
      split at h
      · exact PlotOutcome.noConfusion h
      · rename_i hnn
        split at h
        all_goals try exact PlotOutcome.noConfusion h
        split at h
        · injection h with h1 h2 h3
          rw [← h3]
          exact not_ne_iff.mp hnn
        · split at h
          · injection h with h1 h2 h3
            rw [← h3]
            exact not_ne_iff.mp hnn
          · exact PlotOutcome.noConfusion h

/-- Witness for C4: on `temp(t, la, lo)` of shape `(4, 10, 20)`, the complete
map `{t: 2}` reduces to rank 2, and the empty map ends in the generic caught
error. -/
theorem C4_witness :
    sliceRankIs ⟨["t", "la", "lo"], [4, 10, 20], fun _ => 0⟩ "lo" "la" [("t", 2)] 2 = true ∧
    plot_high_dim_variable_with_coords ⟨[]⟩ ⟨["t", "la", "lo"], [4, 10, 20], fun _ => 0⟩
      [("x", 1)] "lo" "la" = .genericErr := by
  constructor
  · exact (C4_theorem ⟨[]⟩ ⟨["t", "la", "lo"], [4, 10, 20], fun _ => 0⟩ "lo" "la"
      [("t", 2)] rfl (by decide) (by decide) (by decide) (by decide)).1
      (by decide) (by decide) (by decide)
  · exact (C4_theorem ⟨[]⟩ ⟨["t", "la", "lo"], [4, 10, 20], fun _ => 0⟩ "lo" "la"
      [("x", 1)] rfl (by decide) (by decide) (by decide) (by decide)).2.2.1
      "t" (by decide) (by decide) (by decide) rfl

/-- Claim C6: after a successful explicit reduction to a 2-D slice, coordinate
alignment checks exactly three cases in order — both coordinate variables 1-D
(outer product), both exactly the slice's shape (used directly), otherwise the
coordinate-mismatch failure with no plot. -/
theorem C6_theorem (ds : NCDataset) (var : NCVar) (index_map : List (String × Nat))
    (x_dim y_dim : String) (data : PyArr) (x_vals y_vals : NCVar)
    (hs : sliceVar var x_dim y_dim index_map = .ok data)
    (h2 : data.ndim = 2)
    (hlx : lookupVar ds x_dim = some x_vals)
    (hly : lookupVar ds y_dim = some y_vals) :
    (x_vals.arr.ndim = 1 ∧ y_vals.arr.ndim = 1 →
      plot_high_dim_variable_with_coords ds var index_map x_dim y_dim =
        .plotted (meshgrid x_vals.arr y_vals.arr).1 (meshgrid x_vals.arr y_vals.arr).2
          data) ∧
    ((x_vals.arr.ndim = 1 ∧ y_vals.arr.ndim = 1 → False) →
      x_vals.arr.shape = data.shape → y_vals.arr.shape = data.shape →
      plot_high_dim_variable_with_coords ds var index_map x_dim y_dim =
        .plotted x_vals.arr y_vals.arr data) ∧
    ((x_vals.arr.ndim = 1 ∧ y_vals.arr.ndim = 1 → False) →
      (x_vals.arr.shape = data.shape ∧ y_vals.arr.shape = data.shape → False) →
      plot_high_dim_variable_with_coords ds var index_map x_dim y_dim =
        .coordMismatch) := by
  have hred : plot_high_dim_variable_with_coords ds var index_map x_dim y_dim =
      (if x_vals.arr.ndim == 1 && y_vals.arr.ndim == 1 then
        PlotOutcome.plotted (meshgrid x_vals.arr y_vals.arr).1
          (meshgrid x_vals.arr y_vals.arr).2 data
      else if x_vals.arr.shape == data.shape && y_vals.arr.shape == data.shape then
        .plotted x_vals.arr y_vals.arr data
      else .coordMismatch) := by
    rw [plot_of_ok ds var index_map x_dim y_dim data hs, if_neg (by simp [h2])]
    rw [hlx, hly]
  rw [hred]
  refine ⟨?_, ?_, ?_⟩
  · rintro ⟨e1, e2⟩
    simp [e1, e2]
  · intro hn hsx hsy
    have hcf : (x_vals.arr.ndim == 1 && y_vals.arr.ndim == 1) = false := by
      cases a : x_vals.arr.ndim == 1 <;> cases b : y_vals.arr.ndim == 1 <;>
        simp_all [beq_iff_eq]
    simp [hcf, hsx, hsy]
  · intro hn hs2
    have hcf : (x_vals.arr.ndim == 1 && y_vals.arr.ndim == 1) = false := by
      cases a : x_vals.arr.ndim == 1 <;> cases b : y_vals.arr.ndim == 1 <;>
        simp_all [beq_iff_eq]
    have hcf2 : (x_vals.arr.shape == data.shape && y_vals.arr.shape == data.shape)
        = false := by
      cases a : x_vals.arr.shape == data.shape <;>
        cases b : y_vals.arr.shape == data.shape <;> simp_all [beq_iff_eq]
    simp [hcf, hcf2]

/-- Witness for C6: at the concrete mismatching coordinates the third alignment
case fires and no plot is attempted. -/
theorem C6_witness :
    plot_high_dim_variable_with_coords dsW6 vW6 [("t", 1)] "lo" "la" = .coordMismatch := by
  have h := C6_theorem dsW6 vW6 [("t", 1)] "lo" "la" dataW6 vXW6 vYW6 rfl rfl rfl rfl
  exact h.2.2 (by decide) (by decide)

end NCInfoer
